import Mathlib

set_option maxHeartbeats 1000000

namespace ZabbixMon

/-! Shallow embedding of the zabbix_mon repository.

Part 1: the Zabbix sender wire protocol (package zabbix, sender part:
`buildPacket`, `readResponse`).  Bytes are `Nat` values; a TCP receive
stream is modelled as the list of chunks in which the peer's bytes become
available, and one Go `conn.Read(buf)` call returns data from the first
pending chunk only (Go's `io.Reader` contract: `Read` may return fewer
bytes than requested). -/

/-- The 5 magic header bytes of the sender protocol, the Go constant
`senderHeader = "ZBXD\x01"`. -/
def senderHeader : List Nat := [90, 66, 88, 68, 1]

/-- `binary.LittleEndian.PutUint64` applied to `uint64(len(data))`:
little-endian encoding of a length into 8 bytes. -/
def le64 (n : Nat) : List Nat :=
  [n % 256, n / 256 % 256, n / 256 ^ 2 % 256, n / 256 ^ 3 % 256,
   n / 256 ^ 4 % 256, n / 256 ^ 5 % 256, n / 256 ^ 6 % 256, n / 256 ^ 7 % 256]

/-- `binary.LittleEndian.Uint64` over the first 8 bytes of a buffer (the
buffers it is applied to always hold exactly 8 bytes; on a shorter buffer
Go would panic on the bounds check, modelled by 0, unreachable here). -/
def leUint64 : List Nat → Nat
  | b0 :: b1 :: b2 :: b3 :: b4 :: b5 :: b6 :: b7 :: _ =>
    b0 + b1 * 256 + b2 * 256 ^ 2 + b3 * 256 ^ 3 + b4 * 256 ^ 4 + b5 * 256 ^ 5 +
    b6 * 256 ^ 6 + b7 * 256 ^ 7
  | _ => 0

/-- `Sender.buildPacket`: magic header ++ 8-byte little-endian length of the
payload ++ payload verbatim. -/
def buildPacket (data : List Nat) : List Nat :=
  senderHeader ++ le64 data.length ++ data

/-- One Go `conn.Read` into a buffer of size `n`: delivers up to `n` bytes
from the first pending chunk of the stream; `none` models a read error
(for instance EOF on an exhausted stream).  A request for `0` bytes
returns immediately with no bytes. -/
def connRead (s : List (List Nat)) (n : Nat) : Option (List Nat × List (List Nat)) :=
  match n, s with
  | 0, s => some ([], s)
  | _ + 1, [] => none
  | n + 1, c :: rest =>
    let delivered := c.take (n + 1)
    let remainder := c.drop (n + 1)
    some (delivered, if remainder.isEmpty then rest else remainder :: rest)

/-- The contents of a Go buffer `make([]byte, n)` after a single
`conn.Read` whose byte count is ignored: the delivered bytes followed by
the zero bytes the read did not overwrite. -/
def goRead (s : List (List Nat)) (n : Nat) : Option (List Nat × List (List Nat)) :=
  (connRead s n).map fun p => (p.1 ++ List.replicate (n - p.1.length) 0, p.2)

/-- The distinct failure exits of `Sender.readResponse`, one constructor per
`fmt.Errorf` site. -/
inductive RespErr where
  | headerReadFailed
  | invalidHeader (header : List Nat)
  | lengthReadFailed
  | tooLarge (declared : Nat)
  | dataReadFailed
  deriving DecidableEq

/-- `Sender.readResponse`: read 5 header bytes and compare with the magic
sequence, read 8 length bytes and decode little-endian, reject a declared
length above 1 MiB, then read the declared number of payload bytes.  Each
read is a single `conn.Read` whose byte count the Go code ignores. -/
def readResponse (s : List (List Nat)) : Except RespErr (List Nat) :=
  match goRead s 5 with
  | none => .error .headerReadFailed
  | some (header, s1) =>
    if header = senderHeader then
      match goRead s1 8 with
      | none => .error .lengthReadFailed
      | some (lenBytes, s2) =>
        let dataLen := leUint64 lenBytes
        if dataLen > 1024 * 1024 then .error (.tooLarge dataLen)
        else
          match goRead s2 dataLen with
          | none => .error .dataReadFailed
          | some (data, _) => .ok data
    else .error (.invalidHeader header)

/-! Part 2: the metric data model (internal/collector/types.go), the fixed
item catalog (pkg/zabbix/types.go, `GetZabbixItems`) and the
metric-to-wire translator (`Client.convertMetricsToSenderData`).

Numeric metric values (Go `float64` / `uint64`) are modelled by an
abstract type `V`; the Go rendering `fmt.Sprintf("%v", value)` is
modelled by an abstract function `render : V → String`.  A Go
`time.Time` is modelled by its `Unix()` value, an `Int` of seconds. -/

/-- collector.CPUMetrics. -/
structure CPUMetrics (V : Type) where
  usagePercent : V
  loadAvg1 : V
  loadAvg5 : V
  loadAvg15 : V
  deriving DecidableEq

/-- collector.MemoryMetrics. -/
structure MemoryMetrics (V : Type) where
  totalBytes : V
  usedBytes : V
  freeBytes : V
  usagePercent : V
  availableBytes : V
  deriving DecidableEq

/-- collector.DiskMetrics. -/
structure DiskMetrics (V : Type) where
  totalBytes : V
  usedBytes : V
  freeBytes : V
  usagePercent : V
  inodesTotal : V
  inodesUsed : V
  inodesFree : V
  inodesUsedPercent : V
  deriving DecidableEq

/-- collector.NetworkMetrics. -/
structure NetworkMetrics (V : Type) where
  bytesSent : V
  bytesRecv : V
  packetsSent : V
  packetsRecv : V
  errorsIn : V
  errorsOut : V
  dropsIn : V
  dropsOut : V
  deriving DecidableEq

/-- collector.MetricSet: capture timestamp (as unix seconds, its only use)
plus the four category sub-records. -/
structure MetricSet (V : Type) where
  timestamp : Int
  cpu : CPUMetrics V
  memory : MemoryMetrics V
  disk : DiskMetrics V
  network : NetworkMetrics V
  deriving DecidableEq

instance (V : Type) [Inhabited V] : Inhabited (CPUMetrics V) :=
  ⟨⟨default, default, default, default⟩⟩

instance (V : Type) [Inhabited V] : Inhabited (MemoryMetrics V) :=
  ⟨⟨default, default, default, default, default⟩⟩

instance (V : Type) [Inhabited V] : Inhabited (DiskMetrics V) :=
  ⟨⟨default, default, default, default, default, default, default, default⟩⟩

instance (V : Type) [Inhabited V] : Inhabited (NetworkMetrics V) :=
  ⟨⟨default, default, default, default, default, default, default, default⟩⟩

/-- zabbix.ZabbixMetricItem: one entry of the fixed item catalog. -/
structure ZabbixMetricItem where
  key : String
  name : String
  valueType : Nat
  description : String
  deriving DecidableEq

/-- zabbix.GetZabbixItems: the fixed catalog of the 18 metric items shared
by provisioning and translation. -/
def GetZabbixItems : List ZabbixMetricItem :=
  [⟨"system.cpu.util[,idle]", "CPU utilization", 0, "CPU usage percentage"⟩,
   ⟨"system.cpu.load[percpu,avg1]", "Processor load (1 min average per core)", 0,
    "1 minute load average"⟩,
   ⟨"system.cpu.load[percpu,avg5]", "Processor load (5 min average per core)", 0,
    "5 minute load average"⟩,
   ⟨"system.cpu.load[percpu,avg15]", "Processor load (15 min average per core)", 0,
    "15 minute load average"⟩,
   ⟨"vm.memory.size[total]", "Total memory", 3, "Total memory in bytes"⟩,
   ⟨"vm.memory.size[used]", "Used memory", 3, "Used memory in bytes"⟩,
   ⟨"vm.memory.size[available]", "Available memory", 3, "Available memory in bytes"⟩,
   ⟨"vm.memory.util", "Memory utilization", 0, "Memory usage percentage"⟩,
   ⟨"vfs.fs.size[/,total]", "Free disk space on / (total)", 3, "Total disk space in bytes"⟩,
   ⟨"vfs.fs.size[/,used]", "Used disk space on /", 3, "Used disk space in bytes"⟩,
   ⟨"vfs.fs.size[/,free]", "Free disk space on /", 3, "Free disk space in bytes"⟩,
   ⟨"vfs.fs.pused[/]", "Free disk space on / (percentage used)", 0, "Disk usage percentage"⟩,
   ⟨"net.if.in[all]", "Incoming network traffic on all interfaces", 3,
    "Bytes received on all network interfaces"⟩,
   ⟨"net.if.out[all]", "Outgoing network traffic on all interfaces", 3,
    "Bytes sent on all network interfaces"⟩,
   ⟨"net.if.in[all,packets]", "Incoming packets on all interfaces", 3,
    "Packets received on all network interfaces"⟩,
   ⟨"net.if.out[all,packets]", "Outgoing packets on all interfaces", 3,
    "Packets sent on all network interfaces"⟩,
   ⟨"net.if.in[all,errors]", "Incoming errors on all interfaces", 3,
    "Input errors on all network interfaces"⟩,
   ⟨"net.if.out[all,errors]", "Outgoing errors on all interfaces", 3,
    "Output errors on all network interfaces"⟩]

/-- Modelled from the spec: the wire-metric record (`Metric`, constructed by
`NewMetric` in client.go) is referenced by the client but its definition is
not among the provided sources; per the spec a WireMetric is (host name,
item key, value rendered as string, unix-seconds timestamp). -/
structure Metric where
  host : String
  key : String
  value : String
  clock : Int
  deriving DecidableEq

/-- Modelled from the spec: `NewMetric(host, key, value, clock)` builds a
wire-metric record from its four fields. -/
def NewMetric (host key value : String) (clock : Int) : Metric :=
  ⟨host, key, value, clock⟩

/-- The (key, value) pairs fed to `addMetric` by
`Client.convertMetricsToSenderData`, in the source's call order. -/
def senderKeyValues {V : Type} (m : MetricSet V) : List (String × V) :=
  [("system.cpu.util[,idle]", m.cpu.usagePercent),
   ("system.cpu.load[percpu,avg1]", m.cpu.loadAvg1),
   ("system.cpu.load[percpu,avg5]", m.cpu.loadAvg5),
   ("system.cpu.load[percpu,avg15]", m.cpu.loadAvg15),
   ("vm.memory.size[total]", m.memory.totalBytes),
   ("vm.memory.size[used]", m.memory.usedBytes),
   ("vm.memory.size[available]", m.memory.availableBytes),
   ("vm.memory.util", m.memory.usagePercent),
   ("vfs.fs.size[/,total]", m.disk.totalBytes),
   ("vfs.fs.size[/,used]", m.disk.usedBytes),
   ("vfs.fs.size[/,free]", m.disk.freeBytes),
   ("vfs.fs.pused[/]", m.disk.usagePercent),
   ("net.if.in[all]", m.network.bytesRecv),
   ("net.if.out[all]", m.network.bytesSent),
   ("net.if.in[all,packets]", m.network.packetsRecv),
   ("net.if.out[all,packets]", m.network.packetsSent),
   ("net.if.in[all,errors]", m.network.errorsIn),
   ("net.if.out[all,errors]", m.network.errorsOut)]

/-- `Client.convertMetricsToSenderData`: for each (key, value) pair of the
fixed call sequence, `addMetric` appends `NewMetric(hostName, key,
fmt.Sprintf("%v", value), metrics.Timestamp.Unix())` exactly when `key` is
present in the items map `c.items`. -/
def convertMetricsToSenderData {V : Type} (render : V → String) (hostName : String)
    (items : String → Option String) (m : MetricSet V) : List Metric :=
  (senderKeyValues m).filterMap fun kv =>
    if (items kv.1).isSome then
      some (NewMetric hostName kv.1 (render kv.2) m.timestamp)
    else none

/-! Part 3: the sender's send path (`Sender.SendData`, `Sender.sendPacket`)
and the client's send path (`Client.SendMetrics`), instrumented with a
trace of network actions.  The JSON codec (`encoding/json`) is an external
library and is modelled by abstract (de)serialization functions. -/

/-- zabbix.SenderData: one data item of a sender request. -/
structure SenderData (V : Type) where
  host : String
  key : String
  value : V
  clock : Int

/-- zabbix.SenderRequest: the JSON body of a sender request. -/
structure SenderRequest (V : Type) where
  request : String
  data : List (SenderData V)
  clock : Int

/-- zabbix.SenderResponse: the JSON body of a sender response. -/
structure SenderResponse where
  response : String
  info : String

/-- Network-level side effects of a send, in order of occurrence. -/
inductive NetAction where
  | dial
  | writePacket (packet : List Nat)
  | readFrame
  deriving DecidableEq

/-- The behaviour of the TCP collaborator for one `sendPacket` call:
whether the dial fails, whether setting the deadline or the write fails,
and the receive stream served to `readResponse`. -/
structure ConnEnv where
  dialErr : Option String
  deadlineErr : Option String
  writeErr : Option String
  recvStream : List (List Nat)

/-- Models encoding/json for the sender request/response bodies: an
abstract serializer for `SenderRequest` and parser for `SenderResponse`. -/
structure JsonCodec (V : Type) where
  marshal : SenderRequest V → Except String (List Nat)
  unmarshalResp : List Nat → Except String SenderResponse

/-- The distinct failure exits of the send path, one constructor per
`fmt.Errorf` site of `SendData` / `sendPacket`. -/
inductive SendErr where
  | marshalFailed (e : String)
  | dialFailed (e : String)
  | deadlineFailed (e : String)
  | writeFailed (e : String)
  | readFailed (e : RespErr)
  | unmarshalFailed (e : String)
  | serverError (info : String)
  deriving DecidableEq

/-- `Sender.sendPacket`: dial, set the deadline, write the whole packet,
then read the response frame via `readResponse`; the connection is closed
on every exit (a `defer`, with no observable effect in this model). -/
def sendPacket (conn : ConnEnv) (packet : List Nat) :
    List NetAction × Except SendErr (List Nat) :=
  match conn.dialErr with
  | some e => ([.dial], .error (.dialFailed e))
  | none =>
    match conn.deadlineErr with
    | some e => ([.dial], .error (.deadlineFailed e))
    | none =>
      match conn.writeErr with
      | some e => ([.dial, .writePacket packet], .error (.writeFailed e))
      | none =>
        match readResponse conn.recvStream with
        | .error e => ([.dial, .writePacket packet, .readFrame], .error (.readFailed e))
        | .ok resp => ([.dial, .writePacket packet, .readFrame], .ok resp)

/-- `Sender.SendData`: return `nil` at once on an empty data list;
otherwise marshal the request `{request: "sender data", data, clock}`,
frame it with `buildPacket`, transmit via `sendPacket` and require the
parsed response's `response` field to equal `"success"`. -/
def SendData {V : Type} (json : JsonCodec V) (conn : ConnEnv) (clockNow : Int)
    (data : List (SenderData V)) : List NetAction × Except SendErr Unit :=
  if data.length = 0 then ([], .ok ())
  else
    match json.marshal ⟨"sender data", data, clockNow⟩ with
    | .error e => ([], .error (.marshalFailed e))
    | .ok jsonData =>
      match sendPacket conn (buildPacket jsonData) with
      | (acts, .error e) => (acts, .error e)
      | (acts, .ok response) =>
        match json.unmarshalResp response with
        | .error e => (acts, .error (.unmarshalFailed e))
        | .ok senderResp =>
          if senderResp.response = "success" then (acts, .ok ())
          else (acts, .error (.serverError senderResp.info))

/-- `Client.SendMetrics`: translate the snapshot; if the translation is
empty, log a warning and return `nil` with no network activity; otherwise
hand the batch to the data-plane sender.  The sender call
(`NewPacket` / `Sender.Send`, modelled from the spec because their
definitions are not among the provided sources) is abstracted as a
function returning its network-action trace and result. -/
def SendMetrics {V : Type} (render : V → String) (hostName : String)
    (items : String → Option String)
    (send : List Metric → List NetAction × Except String (List Nat))
    (m : MetricSet V) : List NetAction × Except String Unit :=
  let senderMetrics := convertMetricsToSenderData render hostName items m
  if senderMetrics.length = 0 then ([], .ok ())
  else
    match send senderMetrics with
    | (acts, .error e) => (acts, .error ("failed to send metrics via sender: " ++ e))
    | (acts, .ok _) => (acts, .ok ())

/-! Part 4: the delivery scheduler (internal/scheduler/scheduler.go):
`isAuthError` and `sendMetricsWithRetry`, the latter instrumented with a
trace of its send / wait / re-initialize events.  Durations are naturals
(the unit is irrelevant); an error value is represented by its rendered
text `err.Error()`, which is what the classifier inspects. -/

/-- The third disjunct of `Scheduler.isAuthError`: the error text compared
with "Invalid params" conjoined with the same text compared with
"Session terminated" or "invalid auth token". -/
def authThirdDisjunct (s : String) : Bool :=
  s == "Invalid params" && (s == "Session terminated" || s == "invalid auth token")

/-- `Scheduler.isAuthError` on the rendered text of a (non-nil) error:
`fmt.Sprintf("%v", err)` and `errStr := err.Error()` render the same
text `s`; the leading `err != nil` conjunct holds at every call site
(`err` comes from the non-nil branch of a `SendMetrics` result, and
`err.Error()` on line 172 would already dereference a nil error). -/
def isAuthError (s : String) : Bool :=
  s == "Session terminated, re-login, please." ||
  s == "Not authorized" ||
  authThirdDisjunct s

/-- The collaborators of one `sendMetricsWithRetry` run: the result of the
i-th `SendMetrics` call (`none` is success, `some s` a failure rendering
as `s`), the result of the i-th in-loop `Initialize` call, and whether the
run-level cancellation fires during the backoff wait preceding attempt i. -/
structure RetryEnv where
  sendErr : Nat → Option String
  reinitErr : Nat → Option String
  cancelDuringWait : Nat → Bool

/-- Observable events of one `sendMetricsWithRetry` run, in order:
a completed backoff wait of a given duration, a `SendMetrics` call for a
0-based attempt index, and an in-loop `Initialize` call together with
whether that call failed (its failure is only logged). -/
inductive RetryEvent where
  | wait (d : Nat)
  | send (attempt : Nat)
  | reinit (attempt : Nat) (failed : Bool)
  deriving DecidableEq

/-- The three exits of `sendMetricsWithRetry`: `nil` on a successful send,
`ctx.Err()` when the cancellation fires during a backoff wait, and the
final wrapping error carrying the last failure once all attempts are
exhausted (`lastErr` is still `nil` there when `MaxRetries <= 0`). -/
inductive RetryOutcome where
  | ok
  | ctxCanceled
  | exhausted (lastErr : Option String)
  deriving DecidableEq

/-- The body of the `for attempt := 0; attempt < maxRetries; attempt++`
loop of `sendMetricsWithRetry`, with `fuel = maxRetries - attempt`
iterations left.  For `attempt > 0` the loop first waits `backoff`
(aborting with `ctx.Err()` if the cancellation fires during the wait)
and then doubles `backoff`.  A failed send is recorded in `lastErr`; a
failure classified by `isAuthError` with `attempt < maxRetries-1`
triggers one best-effort `Initialize` whose error is only logged. -/
def retryGo (env : RetryEnv) (maxRetries : Nat) :
    Nat → Nat → Nat → Option String → List RetryEvent × RetryOutcome
  | 0, _, _, lastErr => ([], .exhausted lastErr)
  | fuel + 1, attempt, backoff, _lastErr =>
    if attempt > 0 ∧ env.cancelDuringWait attempt then ([], .ctxCanceled)
    else
      let waitEvents : List RetryEvent := if attempt > 0 then [.wait backoff] else []
      let backoff2 := if attempt > 0 then backoff * 2 else backoff
      match env.sendErr attempt with
      | none => (waitEvents ++ [.send attempt], .ok)
      | some e =>
        let reinitEvents : List RetryEvent :=
          if isAuthError e ∧ attempt < maxRetries - 1 then
            [.reinit attempt (env.reinitErr attempt).isSome]
          else []
        let rest := retryGo env maxRetries fuel (attempt + 1) backoff2 (some e)
        (waitEvents ++ [.send attempt] ++ reinitEvents ++ rest.1, rest.2)

/-- `Scheduler.sendMetricsWithRetry`: run the loop from attempt 0 with
`backoff = RetryBackoffBase` and `lastErr = nil`. -/
def sendMetricsWithRetry (env : RetryEnv) (maxRetries backoffBase : Nat) :
    List RetryEvent × RetryOutcome :=
  retryGo env maxRetries maxRetries 0 backoffBase none

/-- The events of the 0-based attempt `i` when every attempt fails with a
non-auth error: the backoff wait of `base * 2 ^ (i-1)` that precedes every
attempt but the first, then the send. -/
def attemptEvents (base : Nat) (i : Nat) : List RetryEvent :=
  (if i = 0 then [] else [.wait (base * 2 ^ (i - 1))]) ++ [.send i]

/-- The full event trace of `n` failing attempts 0, 1, …, n-1. -/
def allFailTrace (base n : Nat) : List RetryEvent :=
  ((List.range' 0 n).map (attemptEvents base)).flatten

/-! Part 5: the collector (internal/collector/collector.go, `Collect`) and
the scheduler's cycle guard (`Scheduler.collectAndSend`).  The four
category collections run concurrently and independently; what the gather
loop observes is, for each category, either its record or its error, plus
whether the cycle context was cancelled before all four results were
gathered.  A failed category leaves its zero-valued field in the
pre-allocated `MetricSet` (modelled by `default`). -/

/-- The outcome of the four per-category collectors of one `Collect` call
and of the surrounding cycle context. -/
structure CollectEnv (V : Type) where
  cpu : Except String (CPUMetrics V)
  mem : Except String (MemoryMetrics V)
  disk : Except String (DiskMetrics V)
  net : Except String (NetworkMetrics V)
  ctxDone : Bool

/-- `Collector.Collect`: if the context is cancelled while gathering,
return `ctx.Err()`; otherwise build the per-category error list, fail only
when its length is 4, and otherwise return the snapshot in which each
successful category wrote its record and each failed one left the zero
value. -/
def Collect {V : Type} [Inhabited V] (timestamp : Int) (env : CollectEnv V) :
    Except String (MetricSet V) :=
  if env.ctxDone then .error "context canceled"
  else
    let errors : List String :=
      (if env.cpu.isOk then [] else ["CPU"]) ++
      (if env.mem.isOk then [] else ["Memory"]) ++
      (if env.disk.isOk then [] else ["Disk"]) ++
      (if env.net.isOk then [] else ["Network"])
    if errors.length = 4 then .error "failed to collect all metrics"
    else
      .ok { timestamp := timestamp
            cpu := env.cpu.toOption.getD default
            memory := env.mem.toOption.getD default
            disk := env.disk.toOption.getD default
            network := env.net.toOption.getD default }

/-- The send-relevant part of `Scheduler.collectAndSend`: when `Collect`
fails the cycle logs and returns before any send attempt; otherwise the
cycle's send events are those of `sendMetricsWithRetry`. -/
def collectAndSend {V : Type} (collected : Except String (MetricSet V))
    (renv : RetryEnv) (maxRetries backoffBase : Nat) : List RetryEvent :=
  match collected with
  | .error _ => []
  | .ok _ => (sendMetricsWithRetry renv maxRetries backoffBase).1

/-! Part 6: the control-plane client initialization (client.go:
`Login`, `findHost`, `loadItems`, `createMissingItems`, `Initialize`).
The JSON-RPC transport (`makeRequest`) is the external collaborator; the
environment holds the decoded result of each control-plane call.
`Initialize` is instrumented with the trace of control-plane calls and of
the data-plane sender construction. -/

/-- zabbix.Host (the fields requested by `findHost`). -/
structure Host where
  hostID : String
  host : String
  name : String
  status : String

/-- zabbix.Item (the fields requested by `loadItems`). -/
structure Item where
  itemID : String
  name : String
  key : String
  status : String

/-- zabbix.ItemCreateParams as built by `createMissingItems`: type 2
(trapper), data type 0 (decimal), status 0 (enabled). -/
structure ItemCreateParams where
  name : String
  key : String
  hostID : String
  type : Nat
  valueType : Nat
  dataType : Nat
  description : String
  status : Nat
  deriving DecidableEq

/-- Decoded results of the control-plane calls made during one
`Initialize` run: the auth token from user.login, the host list from
host.get, the item list from item.get, the created item ids from
item.create, and the host extracted from the API URL
(`getZabbixServerHost`). -/
structure InitEnv where
  login : Except String String
  hostGet : Except String (List Host)
  itemGet : Except String (List Item)
  itemCreate : List ItemCreateParams → Except String (List String)
  serverHost : Except String String

/-- The failure exits of `Initialize`, one constructor per error return
(each wrapped by an outer `fmt.Errorf` in the Go code). -/
inductive InitErr where
  | loginFailed (e : String)
  | hostGetFailed (e : String)
  | hostNotFound (name : String)
  | itemGetFailed (e : String)
  | itemCreateFailed (e : String)
  | createCountMismatch (got expected : Nat)
  | serverHostFailed (e : String)
  deriving DecidableEq

/-- The observable actions of one `Initialize` run: the four control-plane
requests and the construction of the data-plane sender. -/
inductive InitAction where
  | login
  | hostGet
  | itemGet
  | itemCreate
  | mkSender
  deriving DecidableEq

/-- The client state mutated by initialization: auth token, resolved host
id and name, the key → item-id map, and the data-plane sender
(server host and fixed port 10051) once constructed. -/
structure ClientState where
  authToken : String
  hostID : String
  hostName : String
  items : String → Option String
  sender : Option (String × Nat)

/-- Go map insertions `m[k] = v` in list order: a later insertion for the
same key overwrites an earlier one. -/
def insertItem (m : String → Option String) (key itemID : String) :
    String → Option String :=
  fun k => if k = key then some itemID else m k

/-- `loadItems`: rebuild `c.items` from scratch out of the fetched item
list, inserting `items[item.Key] = item.ItemID` in order. -/
def buildItemsMap (l : List Item) : String → Option String :=
  l.foldl (fun m it => insertItem m it.key it.itemID) (fun _ => none)

/-- `createMissingItems`: the creation parameters for the catalog entries
whose key is absent from the current items map, in catalog order. -/
def itemsToCreate (items : String → Option String) (hostID : String) :
    List ItemCreateParams :=
  GetZabbixItems.filterMap fun z =>
    if (items z.key).isSome then none
    else some ⟨z.name, z.key, hostID, 2, z.valueType, 0, z.description, 0⟩

/-- `createMissingItems`: merge the returned item ids into the map,
`items[itemsToCreate[i].Key] = itemIDs[i]` in order. -/
def mergeCreatedIDs (m : String → Option String)
    (created : List ItemCreateParams) (ids : List String) :
    String → Option String :=
  (created.zip ids).foldl (fun m p => insertItem m p.1.key p.2) m

/-- `Client.Initialize`: login, find the host (zero matches is fatal),
load the existing items, create the missing ones (a count mismatch is
fatal), then derive the data-plane endpoint and construct the sender.
Returns the trace of its actions with the final state or first error. -/
def InitializeClient (env : InitEnv) (hostName : String) (st : ClientState) :
    List InitAction × Except InitErr ClientState :=
  match env.login with
  | .error e => ([.login], .error (.loginFailed e))
  | .ok tok =>
    let st1 := { st with authToken := tok }
    match env.hostGet with
    | .error e => ([.login, .hostGet], .error (.hostGetFailed e))
    | .ok hosts =>
      match hosts with
      | [] => ([.login, .hostGet], .error (.hostNotFound hostName))
      | h :: _ =>
        let st2 := { st1 with hostID := h.hostID, hostName := hostName }
        match env.itemGet with
        | .error e => ([.login, .hostGet, .itemGet], .error (.itemGetFailed e))
        | .ok itemList =>
          let st3 := { st2 with items := buildItemsMap itemList }
          let toCreate := itemsToCreate st3.items st3.hostID
          let afterCreate : List InitAction × Except InitErr ClientState :=
            if toCreate.length = 0 then ([], .ok st3)
            else
              match env.itemCreate toCreate with
              | .error e => ([.itemCreate], .error (.itemCreateFailed e))
              | .ok ids =>
                if ids.length ≠ toCreate.length then
                  ([.itemCreate], .error (.createCountMismatch ids.length toCreate.length))
                else
                  ([.itemCreate],
                   .ok { st3 with items := mergeCreatedIDs st3.items toCreate ids })
          match afterCreate with
          | (acts, .error e) => ([.login, .hostGet, .itemGet] ++ acts, .error e)
          | (acts, .ok st4) =>
            match env.serverHost with
            | .error e =>
              ([.login, .hostGet, .itemGet] ++ acts, .error (.serverHostFailed e))
            | .ok server =>
              ([.login, .hostGet, .itemGet] ++ acts ++ [.mkSender],
               .ok { st4 with sender := some (server, 10051) })

/-! Concrete instances used by witnesses. -/

/-- A concrete metric snapshot over `V := Nat` used by witnesses. -/
def natSnapshot : MetricSet Nat :=
  { timestamp := 7
    cpu := ⟨1, 2, 3, 4⟩
    memory := ⟨5, 6, 7, 8, 9⟩
    disk := ⟨10, 11, 12, 13, 14, 15, 16, 17⟩
    network := ⟨20, 21, 22, 23, 24, 25, 26, 27⟩ }

/-- A provisioned-item map holding exactly the CPU-utilization and
total-memory keys. -/
def itemsAB : String → Option String :=
  fun k =>
    if k = "system.cpu.util[,idle]" ∨ k = "vm.memory.size[total]" then some "1"
    else none

/-- The fresh client state produced by `NewClient`. -/
def emptyClientState : ClientState := ⟨"", "", "", fun _ => none, none⟩

/-- A control-plane environment whose host lookup returns the empty list. -/
def hostlessEnv : InitEnv :=
  { login := .ok "tok"
    hostGet := .ok []
    itemGet := .error "unreached"
    itemCreate := fun _ => .error "unreached"
    serverHost := .error "unreached" }

/-- A retry environment in which every send fails with the same transient
error, re-initialization always succeeds, and the cancellation never
fires. -/
def transientFailEnv : RetryEnv :=
  { sendErr := fun _ => some "failed to send packet: connection refused"
    reinitErr := fun _ => none
    cancelDuringWait := fun _ => false }

/-- A retry environment in which every send fails with the same transient
error and the cancellation fires during the wait before attempt 1. -/
def cancelAtOneEnv : RetryEnv :=
  { sendErr := fun _ => some "failed to send packet: connection refused"
    reinitErr := fun _ => none
    cancelDuringWait := fun i => decide (i = 1) }

/-- A retry environment whose first send fails with an auth error, whose
later sends fail with a transient error, and whose re-initialization
fails as well. -/
def authThenTransientEnv : RetryEnv :=
  { sendErr := fun i => if i = 0 then some "Not authorized"
      else some "failed to send packet: connection refused"
    reinitErr := fun _ => some "failed to login: bad credentials"
    cancelDuringWait := fun _ => false }

/-! Theorems. -/

/-- Decoding inverts the little-endian encoding below 2^64. -/
theorem leUint64_le64 (n : Nat) (h : n < 2 ^ 64) : leUint64 (le64 n) = n := by
  simp only [le64, leUint64]
  omega

/-- The encoded length always occupies exactly 8 bytes. -/
theorem le64_length (n : Nat) : (le64 n).length = 8 := rfl

/-- A zero-byte read consumes nothing and delivers no bytes. -/
theorem goRead_zero (s : List (List Nat)) : goRead s 0 = some ([], s) := rfl

/-- A positive read whose requested size matches a known prefix of the
first chunk delivers exactly that prefix and leaves the rest. -/
theorem goRead_prefix (pre post : List Nat) (rest : List (List Nat)) (n : Nat)
    (h : pre.length = n) (hn : 0 < n) :
    goRead ((pre ++ post) :: rest) n =
      some (pre, if post.isEmpty then rest else post :: rest) := by
  cases n with
  | zero => omega
  | succ m =>
    simp only [goRead, connRead, List.take_left' h, List.drop_left' h, Option.map_some]
    simp [h]

/-- A positive read of exactly the whole first chunk delivers it and pops
it from the stream. -/
theorem goRead_chunk (c : List Nat) (rest : List (List Nat)) (n : Nat)
    (h : c.length = n) (hn : 0 < n) :
    goRead (c :: rest) n = some (c, rest) := by
  have := goRead_prefix c [] rest n h hn
  simpa using this

/-- C1: for every payload byte sequence P whose length is within the 1 MiB
ceiling, parsing the frame built by `buildPacket` from P (magic header,
8-byte little-endian length, P verbatim) with `readResponse` yields
exactly P: frame-then-parse is the identity on payload bytes. -/
theorem frame_parse_roundtrip (P : List Nat) (h : P.length ≤ 1024 * 1024) :
    readResponse [buildPacket P] = .ok P := by
  have h64 : P.length < 2 ^ 64 := by omega
  have e1 : goRead [senderHeader ++ (le64 P.length ++ P)] 5
      = some (senderHeader, [le64 P.length ++ P]) := by
    simpa [le64] using
      goRead_prefix senderHeader (le64 P.length ++ P) [] 5 rfl (by omega)
  have e2 : goRead [le64 P.length ++ P] 8
      = some (le64 P.length, if P.isEmpty then [] else [P]) := by
    simpa using goRead_prefix (le64 P.length) P [] 8 (le64_length _) (by omega)
  have e3 : goRead (if P.isEmpty then [] else [P]) P.length = some (P, []) := by
    cases P with
    | nil => rfl
    | cons a t => exact goRead_chunk (a :: t) [] (a :: t).length rfl (by simp)
  have hgt : ¬ P.length > 1024 * 1024 := by omega
  simp only [readResponse, buildPacket, List.append_assoc, e1, e2, e3,
    leUint64_le64 _ h64, hgt, if_true, if_false, reduceIte]

/-- C1 witness: a concrete round trip through the framer and the parser. -/
theorem frame_parse_roundtrip_witness :
    ([1, 2, 3] : List Nat).length ≤ 1024 * 1024 ∧
      readResponse [buildPacket [1, 2, 3]] = .ok [1, 2, 3] :=
  ⟨by decide, frame_parse_roundtrip [1, 2, 3] (by decide)⟩

/-- C6: whatever bytes follow in the same chunk and whatever chunks follow,
a response whose decoded 8-byte declared length exceeds 1 MiB is rejected
with the oversize protocol error before any payload read: the result does
not depend on any payload byte. -/
theorem oversize_rejected (L : Nat) (extra : List Nat) (rest : List (List Nat))
    (h1 : 1024 * 1024 < L) (h2 : L < 2 ^ 64) :
    readResponse ((senderHeader ++ le64 L ++ extra) :: rest) = .error (.tooLarge L) := by
  have e1 : goRead ((senderHeader ++ (le64 L ++ extra)) :: rest) 5
      = some (senderHeader, (le64 L ++ extra) :: rest) := by
    simpa [le64] using
      goRead_prefix senderHeader (le64 L ++ extra) rest 5 rfl (by omega)
  have e2 : goRead ((le64 L ++ extra) :: rest) 8
      = some (le64 L, if extra.isEmpty then rest else extra :: rest) := by
    simpa using goRead_prefix (le64 L) extra rest 8 (le64_length _) (by omega)
  simp only [readResponse, List.append_assoc, e1, e2, leUint64_le64 _ h2, h1,
    if_true, reduceIte, gt_iff_lt, if_pos]

/-- C6 witness: a declared length of 1 MiB + 1 is rejected as too large. -/
theorem oversize_rejected_witness :
    1024 * 1024 < 1024 * 1024 + 1 ∧ 1024 * 1024 + 1 < 2 ^ 64 ∧
      readResponse [senderHeader ++ le64 (1024 * 1024 + 1)] = .error (.tooLarge (1024 * 1024 + 1)) := by
  refine ⟨by omega, by omega, ?_⟩
  have := oversize_rejected (1024 * 1024 + 1) [] [] (by omega) (by omega)
  simpa using this

/-- C7: evaluating the reader on a response delivered in two TCP segments
(header, length 4 and payload bytes [1, 2] in the first, bytes [3, 4] in
the second): the single `conn.Read` call delivers only [1, 2], its short
byte count is ignored, and the reader returns the zero-padded buffer
[1, 2, 0, 0] as a success instead of surfacing the short read as an
error. -/
theorem short_read_truncated_success :
    readResponse [senderHeader ++ le64 4 ++ [1, 2], [3, 4]] = .ok [1, 2, 0, 0] := rfl

/-- C9: the third disjunct of the scheduler's auth-error classifier is
unsatisfiable (it compares one and the same rendered text with "Invalid
params" and with "Session terminated" / "invalid auth token"), so
`isAuthError` holds exactly on the two texts "Session terminated,
re-login, please." and "Not authorized". -/
theorem isAuthError_characterization :
    (∀ s : String, authThirdDisjunct s = false) ∧
      (∀ s : String, isAuthError s =
        (s == "Session terminated, re-login, please." || s == "Not authorized")) := by
  have hthird : ∀ s : String, authThirdDisjunct s = false := by
    intro s
    unfold authThirdDisjunct
    by_cases hs : s = "Invalid params"
    · subst hs; decide
    · have : (s == "Invalid params") = false := by
        simpa using hs
      simp [this]
  refine ⟨hthird, fun s => ?_⟩
  unfold isAuthError
  rw [hthird s]
  simp

/-- C10: `Sender.SendData` on an empty data list returns success at once
with an empty network-action trace (no dial, no write, no read), and
`Client.SendMetrics` likewise returns success with no network activity
whenever the translation yields zero entries, whatever the sender would
do. -/
theorem empty_send_no_network :
    (∀ (V : Type) (json : JsonCodec V) (conn : ConnEnv) (clockNow : Int),
       SendData json conn clockNow ([] : List (SenderData V)) = ([], .ok ())) ∧
    (∀ (V : Type) (render : V → String) (hostName : String)
       (items : String → Option String)
       (send : List Metric → List NetAction × Except String (List Nat))
       (m : MetricSet V),
       convertMetricsToSenderData render hostName items m = [] →
       SendMetrics render hostName items send m = ([], .ok ())) := by
  constructor
  · intro V json conn clockNow
    rfl
  · intro V render hostName items send m h
    simp [SendMetrics, h]

/-- C10 witness: both empty-send paths at concrete inputs. -/
theorem empty_send_no_network_witness :
    SendData (V := Nat) ⟨fun _ => .ok [], fun _ => .ok ⟨"success", ""⟩⟩
        ⟨none, none, none, []⟩ 0 [] = ([], .ok ()) ∧
      SendMetrics (V := Nat) (fun _ => "v") "h" (fun _ => none)
        (fun _ => ([.dial], .ok [])) natSnapshot = ([], .ok ()) :=
  ⟨empty_send_no_network.1 Nat _ _ 0,
   empty_send_no_network.2 Nat _ "h" _ _ natSnapshot rfl⟩

/-- C4: translation emits, in catalog order, exactly one wire entry per key
of the fixed 18-key catalog present in the item map and none for absent
keys; every entry carries the configured host name, the snapshot's
unix-seconds capture time, and the value of its key rendered by the
default numeric-to-string conversion.  (As a Lean function of (render,
host, items, snapshot) the translator is pure by construction.) -/
theorem convert_metrics_spec (V : Type) (render : V → String) (hostName : String)
    (items : String → Option String) (m : MetricSet V) :
    (convertMetricsToSenderData render hostName items m).map Metric.key
        = (GetZabbixItems.map ZabbixMetricItem.key).filter (fun k => (items k).isSome) ∧
      GetZabbixItems.length = 18 ∧
      (∀ e ∈ convertMetricsToSenderData render hostName items m,
        e.host = hostName ∧ e.clock = m.timestamp ∧
          ∃ kv ∈ senderKeyValues m, e.key = kv.1 ∧ e.value = render kv.2) := by
  refine ⟨?_, rfl, ?_⟩
  · have hkeys : ∀ l : List (String × V),
        ((l.filterMap fun kv =>
            if (items kv.1).isSome then
              some (NewMetric hostName kv.1 (render kv.2) m.timestamp)
            else none).map Metric.key)
          = (l.map Prod.fst).filter (fun k => (items k).isSome) := by
      intro l
      induction l with
      | nil => rfl
      | cons a t ih =>
        have hk : ∀ (h k v : String) (c : Int), (NewMetric h k v c).key = k :=
          fun _ _ _ _ => rfl
        by_cases h : (items a.1).isSome <;>
          simp [List.filterMap_cons, h, hk, ih]
    have hcat : (senderKeyValues m).map Prod.fst
        = GetZabbixItems.map ZabbixMetricItem.key := rfl
    rw [convertMetricsToSenderData, hkeys, hcat]
  · intro e he
    rw [convertMetricsToSenderData] at he
    obtain ⟨kv, hkv, heq⟩ := List.mem_filterMap.mp he
    by_cases h : (items kv.1).isSome
    · rw [if_pos h] at heq
      injection heq with heq
      subst heq
      exact ⟨rfl, rfl, kv, hkv, rfl, rfl⟩
    · rw [if_neg h] at heq
      exact absurd heq (by simp)

/-- C4 witness: with a map provisioning exactly two of the 18 keys, the
translation of a concrete snapshot yields exactly those two entries, and
the per-entry facts hold at the first produced entry. -/
theorem convert_metrics_spec_witness :
    ((convertMetricsToSenderData (fun _ : Nat => "v") "h" itemsAB natSnapshot).map Metric.key
        = ["system.cpu.util[,idle]", "vm.memory.size[total]"]) ∧
      (NewMetric "h" "system.cpu.util[,idle]" "v" 7).host = "h" ∧
      (NewMetric "h" "system.cpu.util[,idle]" "v" 7).clock = natSnapshot.timestamp := by
  have h := convert_metrics_spec Nat (fun _ => "v") "h" itemsAB natSnapshot
  have hm : NewMetric "h" "system.cpu.util[,idle]" "v" 7
      ∈ convertMetricsToSenderData (fun _ : Nat => "v") "h" itemsAB natSnapshot := by
    rw [show convertMetricsToSenderData (fun _ : Nat => "v") "h" itemsAB natSnapshot
        = [NewMetric "h" "system.cpu.util[,idle]" "v" 7,
           NewMetric "h" "vm.memory.size[total]" "v" 7] from rfl]
    exact List.mem_cons_self _ _
  refine ⟨?_, (h.2.2 _ hm).1, (h.2.2 _ hm).2.1⟩
  rw [h.1]
  rfl

/-- C5: `Collect` succeeds exactly when the context was not cancelled and
at least one of the four metric categories succeeded; a successful
snapshot carries the capture timestamp and each surviving category's
record; and on a `Collect` error the scheduler's cycle performs zero send
attempts (its send-event trace is empty). -/
theorem collect_partial_failure_spec (V : Type) [Inhabited V] (t : Int)
    (env : CollectEnv V) :
    ((Collect t env).isOk = true ↔
        env.ctxDone = false ∧
          (env.cpu.isOk || env.mem.isOk || env.disk.isOk || env.net.isOk) = true) ∧
      (∀ m, Collect t env = .ok m →
        m.timestamp = t ∧
          (∀ c, env.cpu = .ok c → m.cpu = c) ∧
          (∀ x, env.mem = .ok x → m.memory = x) ∧
          (∀ x, env.disk = .ok x → m.disk = x) ∧
          (∀ x, env.net = .ok x → m.network = x)) ∧
      (∀ (renv : RetryEnv) (maxRetries backoffBase : Nat) (e : String),
        Collect t env = .error e →
        collectAndSend (Collect t env) renv maxRetries backoffBase = []) := by
  refine ⟨?_, ?_, ?_⟩
  · obtain ⟨cpu, mem, disk, net, ctxDone⟩ := env
    cases ctxDone <;> cases cpu <;> cases mem <;> cases disk <;> cases net <;>
      simp [Collect, Except.isOk, Except.toBool]
  · obtain ⟨cpu, mem, disk, net, ctxDone⟩ := env
    cases ctxDone <;> cases cpu <;> cases mem <;> cases disk <;> cases net <;>
      intro m hm <;>
      simp [Collect, Except.isOk, Except.toBool, Except.toOption] at hm <;>
      subst hm <;>
      simp [Except.toOption]
  · intro renv maxRetries backoffBase e he
    rw [he]
    rfl

/-- C5 witness: with three of four categories failing and no cancellation,
`Collect` succeeds, keeps the surviving category's record, and a
`Collect` error (all four failing) yields an empty cycle trace. -/
theorem collect_partial_failure_spec_witness :
    (Collect (V := Nat) 7 ⟨.ok ⟨1, 2, 3, 4⟩, .error "m", .error "d", .error "n", false⟩).isOk
        = true ∧
      (Collect (V := Nat) 7
          ⟨.error "c", .error "m", .error "d", .error "n", false⟩).isOk = false ∧
      collectAndSend (V := Nat)
          (Collect 7 ⟨.error "c", .error "m", .error "d", .error "n", false⟩)
          ⟨fun _ => none, fun _ => none, fun _ => false⟩ 3 1 = [] := by
  refine ⟨?_, by rfl, ?_⟩
  · have h := (collect_partial_failure_spec Nat 7
      ⟨.ok ⟨1, 2, 3, 4⟩, .error "m", .error "d", .error "n", false⟩).1
    rw [h]
    exact ⟨rfl, rfl⟩
  · exact (collect_partial_failure_spec Nat 7
      ⟨.error "c", .error "m", .error "d", .error "n", false⟩).2.2
      ⟨fun _ => none, fun _ => none, fun _ => false⟩ 3 1 "failed to collect all metrics" rfl

/-- C8: when the control-plane host lookup returns an empty host list,
`Initialize` stops with the host-not-found error after exactly the login
and host.get control-plane calls — in particular the data-plane sender is
never constructed; and in every run whatsoever, the sender construction
appears in the trace only when the whole initialization succeeds. -/
theorem init_host_not_found_spec :
    (∀ (env : InitEnv) (hostName : String) (st : ClientState) (tok : String),
       env.login = .ok tok → env.hostGet = .ok [] →
       InitializeClient env hostName st
         = ([.login, .hostGet], .error (.hostNotFound hostName))) ∧
      (∀ (env : InitEnv) (hostName : String) (st : ClientState),
        .mkSender ∈ (InitializeClient env hostName st).1 →
        (InitializeClient env hostName st).2.isOk = true) := by
  constructor
  · intro env hostName st tok h1 h2
    simp [InitializeClient, h1, h2]
  · intro env hostName st
    cases hl : env.login with
    | error e => simp [InitializeClient, hl]
    | ok tok =>
      cases hg : env.hostGet with
      | error e => simp [InitializeClient, hl, hg]
      | ok hosts =>
        cases hosts with
        | nil => simp [InitializeClient, hl, hg]
        | cons h0 hs =>
          cases hi : env.itemGet with
          | error e => simp [InitializeClient, hl, hg, hi]
          | ok itemList =>
            by_cases hc : (itemsToCreate (buildItemsMap itemList) h0.hostID).length = 0
            · cases hsv : env.serverHost with
              | error e => simp [InitializeClient, hl, hg, hi, hc, hsv]
              | ok server =>
                simp [InitializeClient, hl, hg, hi, hc, hsv, Except.isOk, Except.toBool]
            · cases hcr : env.itemCreate (itemsToCreate (buildItemsMap itemList) h0.hostID) with
              | error e => simp [InitializeClient, hl, hg, hi, hc, hcr]
              | ok ids =>
                by_cases hlen : ids.length = (itemsToCreate (buildItemsMap itemList) h0.hostID).length
                · cases hsv : env.serverHost with
                  | error e => simp [InitializeClient, hl, hg, hi, hc, hcr, hlen, hsv]
                  | ok server =>
                    simp [InitializeClient, hl, hg, hi, hc, hcr, hlen, hsv,
                      Except.isOk, Except.toBool]
                · simp [InitializeClient, hl, hg, hi, hc, hcr, hlen]

/-- C8 witness: a concrete empty-host-list run fails with host-not-found
after only the two control-plane calls. -/
theorem init_host_not_found_spec_witness :
    InitializeClient hostlessEnv "myhost" emptyClientState
      = ([.login, .hostGet], .error (.hostNotFound "myhost")) :=
  init_host_not_found_spec.1 hostlessEnv "myhost" emptyClientState "tok" rfl rfl

/-- One step of the retry loop at a positive attempt index that is not
cancelled and whose send fails with a non-auth error: wait the current
backoff, send, record the failure, continue with the doubled backoff. -/
theorem retryGo_step_nonauth (env : RetryEnv) (maxR : Nat) (f attempt backoff : Nat)
    (lastErr : Option String) (err : String)
    (h1 : 1 ≤ attempt)
    (hcw : env.cancelDuringWait attempt = false)
    (hse : env.sendErr attempt = some err)
    (hau : isAuthError err = false) :
    retryGo env maxR (f + 1) attempt backoff lastErr
      = ([RetryEvent.wait backoff, RetryEvent.send attempt]
          ++ (retryGo env maxR f (attempt + 1) (backoff * 2) (some err)).1,
         (retryGo env maxR f (attempt + 1) (backoff * 2) (some err)).2) := by
  have hpos : 0 < attempt := h1
  simp [retryGo, hcw, hse, hau, hpos]

/-- If every attempt from index 1 on fails with a non-auth error and the
cancellation never fires, the loop runs through its remaining fuel,
emitting one backoff wait of `base * 2 ^ (i - 1)` and one send per
attempt i, and ends exhausted with the last failure. -/
theorem retryGo_allFail (env : RetryEnv) (e : Nat → String) (maxR base : Nat)
    (hs : ∀ i, 1 ≤ i → env.sendErr i = some (e i))
    (ha : ∀ i, 1 ≤ i → isAuthError (e i) = false)
    (hc : ∀ i, 1 ≤ i → env.cancelDuringWait i = false) :
    ∀ (fuel attempt : Nat) (lastErr : Option String), 1 ≤ attempt →
      retryGo env maxR fuel attempt (base * 2 ^ (attempt - 1)) lastErr =
        (((List.range' attempt fuel).map (attemptEvents base)).flatten,
          .exhausted (if fuel = 0 then lastErr else some (e (attempt + fuel - 1)))) := by
  intro fuel
  induction fuel with
  | zero =>
    intro attempt lastErr h1
    simp [retryGo]
  | succ f ih =>
    intro attempt lastErr h1
    rw [retryGo_step_nonauth env maxR f attempt _ lastErr (e attempt) h1
      (hc attempt h1) (hs attempt h1) (ha attempt h1)]
    have hb : base * 2 ^ (attempt - 1) * 2 = base * 2 ^ ((attempt + 1) - 1) := by
      rw [mul_assoc, ← pow_succ]
      congr 2
      omega
    rw [hb, ih (attempt + 1) (some (e attempt)) (by omega)]
    rw [List.range'_succ attempt f 1]
    have hne : attempt ≠ 0 := by omega
    have hout : (if f = 0 then some (e attempt) else some (e (attempt + 1 + f - 1)))
        = some (e (attempt + (f + 1) - 1)) := by
      by_cases hf : f = 0
      · subst hf
        simp
      · have h2 : attempt + 1 + f - 1 = attempt + (f + 1) - 1 := by omega
        simp [hf, h2]
    simp [attemptEvents, hne, hout]
    intro hf
    subst hf
    simp

/-- If the cancellation fires exactly during the backoff wait preceding
attempt j (every earlier attempt failing with a non-auth error), the loop
runs attempts up to j-1 and then aborts with the cancellation outcome,
emitting no further event. -/
theorem retryGo_cancelAt (env : RetryEnv) (e : Nat → String) (maxR base j : Nat)
    (hs : ∀ i, 1 ≤ i → env.sendErr i = some (e i))
    (ha : ∀ i, 1 ≤ i → isAuthError (e i) = false)
    (hc : ∀ i, env.cancelDuringWait i = decide (i = j)) :
    ∀ (fuel attempt : Nat) (lastErr : Option String),
      1 ≤ attempt → attempt ≤ j → j < attempt + fuel →
      retryGo env maxR fuel attempt (base * 2 ^ (attempt - 1)) lastErr =
        (((List.range' attempt (j - attempt)).map (attemptEvents base)).flatten,
          .ctxCanceled) := by
  intro fuel
  induction fuel with
  | zero =>
    intro attempt lastErr h1 h2 h3
    omega
  | succ f ih =>
    intro attempt lastErr h1 h2 h3
    by_cases hj : attempt = j
    · subst hj
      have hcw : env.cancelDuringWait attempt = true := by
        rw [hc]
        simp
      have hpos : 0 < attempt := h1
      simp [retryGo, hcw, hpos]
    · have hcw : env.cancelDuringWait attempt = false := by
        rw [hc]
        simp [hj]
      rw [retryGo_step_nonauth env maxR f attempt _ lastErr (e attempt) h1 hcw
        (hs attempt h1) (ha attempt h1)]
      have hb : base * 2 ^ (attempt - 1) * 2 = base * 2 ^ ((attempt + 1) - 1) := by
        rw [mul_assoc, ← pow_succ]
        congr 2
        omega
      rw [hb, ih (attempt + 1) (some (e attempt)) (by omega) (by omega) (by omega)]
      have hr : j - attempt = (j - (attempt + 1)) + 1 := by omega
      rw [hr, List.range'_succ attempt (j - (attempt + 1)) 1]
      have hne : attempt ≠ 0 := by omega
      simp [attemptEvents, hne]

/-- The first loop iteration (attempt 0): no wait, no backoff doubling, the
failed send is recorded and, when the failure is not an auth failure or no
attempt remains, no re-initialization happens. -/
theorem retryGo_step_zero (env : RetryEnv) (maxR f backoff : Nat)
    (lastErr : Option String) (err : String)
    (hse : env.sendErr 0 = some err) (hau : isAuthError err = false) :
    retryGo env maxR (f + 1) 0 backoff lastErr
      = ([RetryEvent.send 0] ++ (retryGo env maxR f 1 backoff (some err)).1,
         (retryGo env maxR f 1 backoff (some err)).2) := by
  simp [retryGo, hse, hau]

/-- One loop iteration whose send fails with an auth-classified error while
attempts remain: exactly one best-effort re-initialization is performed
between this send and the continuation at the next attempt, the loop
continues whatever the re-initialization result is, and that result is
only recorded (logged), never branched on. -/
theorem retryGo_step_auth (env : RetryEnv) (maxR f attempt backoff : Nat)
    (lastErr : Option String) (a : String)
    (hse : env.sendErr attempt = some a)
    (hau : isAuthError a = true)
    (hrem : attempt < maxR - 1)
    (hcw : env.cancelDuringWait attempt = false) :
    retryGo env maxR (f + 1) attempt backoff lastErr
      = ((if attempt > 0 then [RetryEvent.wait backoff] else [])
          ++ [RetryEvent.send attempt,
              RetryEvent.reinit attempt (env.reinitErr attempt).isSome]
          ++ (retryGo env maxR f (attempt + 1)
                (if attempt > 0 then backoff * 2 else backoff) (some a)).1,
         (retryGo env maxR f (attempt + 1)
            (if attempt > 0 then backoff * 2 else backoff) (some a)).2) := by
  simp [retryGo, hse, hau, hrem, hcw]

/-- C2: with MaxRetries = N ≥ 1 and every attempt failing with a non-auth
(transient) error and no cancellation, the loop calls SendMetrics exactly
N times — its trace is exactly one send per attempt 0..N-1, preceded for
every attempt i ≥ 1 by a completed wait of base * 2^(i-1) — and ends with
the error wrapping the last failure; and if the cancellation fires during
the backoff wait preceding attempt j, the loop ends at once with the
cancellation error after only the first j attempts' events. -/
theorem retry_transient_spec :
    (∀ (env : RetryEnv) (N base : Nat) (e : Nat → String), 1 ≤ N →
       (∀ i, env.sendErr i = some (e i)) →
       (∀ i, isAuthError (e i) = false) →
       (∀ i, env.cancelDuringWait i = false) →
       sendMetricsWithRetry env N base
         = (allFailTrace base N, .exhausted (some (e (N - 1))))) ∧
      (∀ (env : RetryEnv) (N base j : Nat) (e : Nat → String), 1 ≤ j → j < N →
        (∀ i, env.sendErr i = some (e i)) →
        (∀ i, isAuthError (e i) = false) →
        (∀ i, env.cancelDuringWait i = decide (i = j)) →
        sendMetricsWithRetry env N base = (allFailTrace base j, .ctxCanceled)) := by
  constructor
  · intro env N base e hN hs ha hc
    obtain ⟨m, rfl⟩ : ∃ m, N = m + 1 := ⟨N - 1, by omega⟩
    rw [sendMetricsWithRetry, retryGo_step_zero env (m + 1) m base none (e 0) (hs 0) (ha 0)]
    cases m with
    | zero =>
      simp [retryGo, allFailTrace, attemptEvents]
    | succ f =>
      have h := retryGo_allFail env e (f + 2) base (fun i _ => hs i) (fun i _ => ha i)
        (fun i _ => hc i) (f + 1) 1 (some (e 0)) (by omega)
      simp only [pow_zero, mul_one, Nat.sub_self] at h
      rw [h]
      simp [allFailTrace, List.range'_succ, attemptEvents]
  · intro env N base j e hj hjN hs ha hc
    obtain ⟨m, rfl⟩ : ∃ m, N = m + 1 := ⟨N - 1, by omega⟩
    rw [sendMetricsWithRetry, retryGo_step_zero env (m + 1) m base none (e 0) (hs 0) (ha 0)]
    have h := retryGo_cancelAt env e (m + 1) base j (fun i _ => hs i) (fun i _ => ha i)
      hc m 1 (some (e 0)) (by omega) hj (by omega)
    simp only [pow_zero, mul_one, Nat.sub_self] at h
    rw [h]
    have hj' : j = (j - 1) + 1 := by omega
    conv_rhs => rw [hj']
    simp [allFailTrace, List.range'_succ, attemptEvents]

/-- C2 witness: N = 3, base = 1: exactly three sends with waits of 1 and 2
before attempts 2 and 3, ending with the last failure; and a cancellation
during the first wait ends the run after one send. -/
theorem retry_transient_spec_witness :
    sendMetricsWithRetry transientFailEnv 3 1
        = ([.send 0, .wait 1, .send 1, .wait 2, .send 2],
           .exhausted (some "failed to send packet: connection refused")) ∧
      sendMetricsWithRetry cancelAtOneEnv 3 1 = ([.send 0], .ctxCanceled) := by
  constructor
  · have h := retry_transient_spec.1 transientFailEnv 3 1
      (fun _ => "failed to send packet: connection refused") (by omega)
      (fun _ => rfl) (fun _ => rfl) (fun _ => rfl)
    rw [h]
    rfl
  · have h := retry_transient_spec.2 cancelAtOneEnv 3 1 1
      (fun _ => "failed to send packet: connection refused") (by omega) (by omega)
      (fun _ => rfl) (fun _ => rfl) (fun _ => rfl)
    rw [h]
    rfl

/-- C3: a send failure classified as an auth error with at least one
attempt remaining triggers exactly one control-plane re-initialization
before the next send attempt, and the loop proceeds to that next attempt
whether or not the re-initialization itself failed (its result is only
logged); in particular, with the first of N ≥ 2 attempts failing with an
auth error and the rest with transient errors, the full trace is send 0,
one re-initialization, then the usual wait/send tail with no further
re-initialization. -/
theorem auth_reinit_spec :
    (∀ (env : RetryEnv) (maxR fuel attempt backoff : Nat) (lastErr : Option String)
       (a : String),
       env.sendErr attempt = some a → isAuthError a = true → attempt < maxR - 1 →
       env.cancelDuringWait attempt = false →
       retryGo env maxR (fuel + 1) attempt backoff lastErr
         = ((if attempt > 0 then [RetryEvent.wait backoff] else [])
             ++ [RetryEvent.send attempt,
                 RetryEvent.reinit attempt (env.reinitErr attempt).isSome]
             ++ (retryGo env maxR fuel (attempt + 1)
                   (if attempt > 0 then backoff * 2 else backoff) (some a)).1,
            (retryGo env maxR fuel (attempt + 1)
               (if attempt > 0 then backoff * 2 else backoff) (some a)).2)) ∧
      (∀ (env : RetryEnv) (N base : Nat) (a : String) (e : Nat → String), 2 ≤ N →
        env.sendErr 0 = some a → isAuthError a = true →
        (∀ i, 1 ≤ i → env.sendErr i = some (e i)) →
        (∀ i, 1 ≤ i → isAuthError (e i) = false) →
        (∀ i, env.cancelDuringWait i = false) →
        sendMetricsWithRetry env N base
          = ([RetryEvent.send 0, RetryEvent.reinit 0 (env.reinitErr 0).isSome]
              ++ ((List.range' 1 (N - 1)).map (attemptEvents base)).flatten,
             .exhausted (some (e (N - 1))))) := by
  constructor
  · intro env maxR fuel attempt backoff lastErr a hse hau hrem hcw
    exact retryGo_step_auth env maxR fuel attempt backoff lastErr a hse hau hrem hcw
  · intro env N base a e hN hs0 ha0 hs ha hc
    obtain ⟨m, rfl⟩ : ∃ m, N = m + 2 := ⟨N - 2, by omega⟩
    rw [sendMetricsWithRetry,
      retryGo_step_auth env (m + 2) (m + 1) 0 base none a hs0 ha0 (by omega) (hc 0)]
    have h := retryGo_allFail env e (m + 2) base hs ha (fun i _ => hc i)
      (m + 1) 1 (some a) (by omega)
    simp only [pow_zero, mul_one, Nat.sub_self] at h
    simp only [gt_iff_lt, Nat.lt_irrefl, if_false, Nat.not_lt_zero, reduceIte] at *
    rw [h]
    simp

/-- C3 witness: auth failure on attempt 1 of 3 with a failing
re-initialization: exactly one reinit (recorded as failed) between send 0
and the wait/send of attempt 2, and the run still exhausts all 3
attempts. -/
theorem auth_reinit_spec_witness :
    sendMetricsWithRetry authThenTransientEnv 3 1
      = ([.send 0, .reinit 0 true, .wait 1, .send 1, .wait 2, .send 2],
         .exhausted (some "failed to send packet: connection refused")) := by
  have h := auth_reinit_spec.2 authThenTransientEnv 3 1 "Not authorized"
    (fun _ => "failed to send packet: connection refused") (by omega) rfl rfl
    (fun i hi => by
      have hne : i ≠ 0 := by omega
      simp [authThenTransientEnv, hne])
    (fun _ _ => rfl) (fun _ => rfl)
  rw [h]
  rfl

end ZabbixMon
